import Mathlib

/-!
Shallow embedding of `src/uart.hpp` (class `Uart`): a POSIX serial-line
configuration object.  The C++ object state is the structure `Uart` below;
each member function becomes a Lean function.  A member function that can
throw (`std::invalid_argument` / `std::runtime_error`) returns
`Except (UartError × Uart) Uart`: the error case carries the object state at
the moment of the throw, because in C++ the mutations already performed
persist on the object when an exception propagates.

Interaction with the OS terminal driver (`::close`, `tcsetattr`) is modelled
by an oracle `OsModel` saying whether each call succeeds.  `tcflag_t` is a
32-bit unsigned integer; flag fields are `Nat` and the C expression
`x &= ~mask` is `x &&& (4294967295 ^^^ mask)` (`cNot`), exact for the
values a 32-bit field can hold.  The termios flag constants carry their
Linux numeric values.
-/

namespace UartModel

/-- Linux termios character-size mask `CSIZE` (octal 060). -/
def CSIZE : Nat := 48

/-- `CS5` (octal 000). -/
def CS5 : Nat := 0

/-- `CS6` (octal 020). -/
def CS6 : Nat := 16

/-- `CS7` (octal 040). -/
def CS7 : Nat := 32

/-- `CS8` (octal 060). -/
def CS8 : Nat := 48

/-- `CSTOPB` (octal 0100). -/
def CSTOPB : Nat := 64

/-- `PARENB` (octal 0400). -/
def PARENB : Nat := 256

/-- `PARODD` (octal 01000). -/
def PARODD : Nat := 512

/-- `CRTSCTS` (octal 020000000000). -/
def CRTSCTS : Nat := 2147483648

/-- `IXON` (octal 02000). -/
def IXON : Nat := 1024

/-- `IXOFF` (octal 010000). -/
def IXOFF : Nat := 4096

/-- `IXANY` (octal 04000). -/
def IXANY : Nat := 2048

/-- 32-bit complement, as applied by C `~mask` on a `tcflag_t` operand. -/
def cNot (mask : Nat) : Nat := 4294967295 ^^^ mask

/-- The flag fields of `struct termios` the code touches, plus the two speed
fields written by `cfsetispeed` / `cfsetospeed`.  The C++ constructor leaves
the member `_tty` uninitialized, so an arbitrary initial record is threaded
through the constructor. -/
structure Termios where
  c_iflag : Nat
  c_oflag : Nat
  c_cflag : Nat
  c_lflag : Nat
  c_ispeed : Nat
  c_ospeed : Nat
deriving DecidableEq, Repr

/-- Exceptions thrown by `Uart` member functions. -/
inductive UartError where
  | invalidArgument (msg : String)
  | runtimeError (msg : String)
deriving DecidableEq, Repr

/-- State of a `Uart` object: the private data members of the C++ class. -/
structure Uart where
  port : String
  baudRate : Nat
  hfc : Bool
  sfc : Bool
  parity : Char
  stopBits : Int
  dataBits : Int
  fd : Int
  tty : Termios
  opened : Bool
deriving DecidableEq, Repr

/-- Result of a member function that can throw: `ok` final state, or the
error together with the state at the throw point. -/
abbrev UartResult := Except (UartError × Uart) Uart

/-- State after a call whether it returned normally or threw: in C++ the
object survives the exception with its mutations. -/
def exState : UartResult → Uart
  | .ok u => u
  | .error (_, u) => u

/-- Behaviour of the OS driver calls made by the class: does `::close(fd)`
succeed, does `tcsetattr(fd, TCSANOW, ...)` succeed. -/
structure OsModel where
  closeOk : Int → Bool
  tcsetattrOk : Int → Bool

/-- The constructor `Uart::Uart`: pure member initialization, `_fd = -1`,
`_open = false`; `_tty` is left uninitialized, hence the `tty0` argument. -/
def mkUart (port : String) (baudRate : Nat) (hfc : Bool) (sfc : Bool)
    (parity : Char) (stopBits : Int) (dataBits : Int) (tty0 : Termios) : Uart :=
  { port := port
    baudRate := baudRate
    hfc := hfc
    sfc := sfc
    parity := parity
    stopBits := stopBits
    dataBits := dataBits
    fd := -1
    tty := tty0
    opened := false }

/-- The `baudRateMap` table of `Uart::configBaudRate`: numeric rate to the
Linux `Bxxxx` speed code. -/
def baudRateMap : List (Nat × Nat) :=
  [(0, 0), (50, 1), (75, 2),
   (110, 3), (134, 4), (150, 5),
   (200, 6), (300, 7), (600, 8),
   (1200, 9), (1800, 10), (2400, 11),
   (4800, 12), (9600, 13), (19200, 14),
   (38400, 15), (57600, 4097), (115200, 4098),
   (230400, 4099), (460800, 4100), (500000, 4101),
   (576000, 4102), (921600, 4103), (1000000, 4104),
   (1152000, 4105), (1500000, 4106), (2000000, 4107),
   (2500000, 4108), (3000000, 4109), (3500000, 4110),
   (4000000, 4111)]

/-- `std::map::find` on the table. -/
def findBaud (rate : Nat) : Option (Nat × Nat) :=
  baudRateMap.find? (fun p => p.1 == rate)

/-- `Uart::configBaudRate`: stores `_baudRate = baudRate` and `_open = false`
first, then looks the rate up; throws `std::invalid_argument` when absent,
otherwise applies `cfsetispeed` / `cfsetospeed` to `_tty`. -/
def Uart.configBaudRate (u : Uart) (baudRate : Nat) : UartResult :=
  let u1 : Uart := { u with baudRate := baudRate, opened := false }
  match findBaud u1.baudRate with
  | none => .error (.invalidArgument "Invalid baud rate config", u1)
  | some item =>
      .ok { u1 with tty := { u1.tty with c_ispeed := item.2, c_ospeed := item.2 } }

/-- `Uart::configDataBits`: stores `_dataBits` and `_open = false`, clears
`CSIZE` from `_tty.c_cflag`, then the `switch`: sets `CS5`/`CS6`/`CS7`/`CS8`
or throws `std::invalid_argument`. -/
def Uart.configDataBits (u : Uart) (dataBits : Int) : UartResult :=
  let u1 : Uart := { u with
    dataBits := dataBits
    opened := false
    tty := { u.tty with c_cflag := u.tty.c_cflag &&& cNot CSIZE } }
  if dataBits = 5 then
    .ok { u1 with tty := { u1.tty with c_cflag := u1.tty.c_cflag ||| CS5 } }
  else if dataBits = 6 then
    .ok { u1 with tty := { u1.tty with c_cflag := u1.tty.c_cflag ||| CS6 } }
  else if dataBits = 7 then
    .ok { u1 with tty := { u1.tty with c_cflag := u1.tty.c_cflag ||| CS7 } }
  else if dataBits = 8 then
    .ok { u1 with tty := { u1.tty with c_cflag := u1.tty.c_cflag ||| CS8 } }
  else .error (.invalidArgument "Invalid data bits config.", u1)

/-- `Uart::configParity`: stores `_parity` and `_open = false`, then the
`switch` on the parity character.  Note the source's `'O'` branch executes
`_tty.c_cflag &= PARODD` (a bitwise AND with `PARODD`, not with its
complement and not an OR), reproduced here verbatim. -/
def Uart.configParity (u : Uart) (parity : Char) : UartResult :=
  let u1 : Uart := { u with parity := parity, opened := false }
  if parity = 'N' then
    .ok { u1 with tty := { u1.tty with c_cflag := u1.tty.c_cflag &&& cNot PARENB } }
  else if parity = 'E' then
    .ok { u1 with tty := { u1.tty with
            c_cflag := (u1.tty.c_cflag ||| PARENB) &&& cNot PARODD } }
  else if parity = 'O' then
    .ok { u1 with tty := { u1.tty with
            c_cflag := (u1.tty.c_cflag ||| PARENB) &&& PARODD } }
  else .error (.invalidArgument "Invalid parity config.", u1)

/-- `Uart::configStopBits`: stores `_stopBits` and `_open = false`, then
clears or sets `CSTOPB`, or throws. -/
def Uart.configStopBits (u : Uart) (stopBits : Int) : UartResult :=
  let u1 : Uart := { u with stopBits := stopBits, opened := false }
  if stopBits = 1 then
    .ok { u1 with tty := { u1.tty with c_cflag := u1.tty.c_cflag &&& cNot CSTOPB } }
  else if stopBits = 2 then
    .ok { u1 with tty := { u1.tty with c_cflag := u1.tty.c_cflag ||| CSTOPB } }
  else .error (.invalidArgument "Invalid stop bits config.", u1)

/-- `Uart::configHardwareFlowControl`: never throws. -/
def Uart.configHardwareFlowControl (u : Uart) (enable : Bool) : UartResult :=
  let u1 : Uart := { u with hfc := enable, opened := false }
  if enable then
    .ok { u1 with tty := { u1.tty with c_cflag := u1.tty.c_cflag ||| CRTSCTS } }
  else
    .ok { u1 with tty := { u1.tty with c_cflag := u1.tty.c_cflag &&& cNot CRTSCTS } }

/-- `Uart::configSoftwareFlowControl`: edits `c_iflag`; never throws. -/
def Uart.configSoftwareFlowControl (u : Uart) (enable : Bool) : UartResult :=
  let u1 : Uart := { u with sfc := enable, opened := false }
  if enable then
    .ok { u1 with tty := { u1.tty with
            c_iflag := u1.tty.c_iflag ||| (IXON ||| IXOFF ||| IXANY) } }
  else
    .ok { u1 with tty := { u1.tty with
            c_iflag := u1.tty.c_iflag &&& cNot (IXON ||| IXOFF ||| IXANY) } }

/-- `Uart::setAttributes`: sets `_open = false`, then `tcsetattr`; throws
`std::runtime_error` when the driver call fails. -/
def Uart.setAttributes (os : OsModel) (u : Uart) : UartResult :=
  let u1 : Uart := { u with opened := false }
  if os.tcsetattrOk u1.fd then .ok u1
  else .error (.runtimeError "Error in settring attributes.", u1)

/-- `Uart::close`: sets `_open = false` first; when a descriptor is held,
calls `::close` and throws `std::runtime_error` on failure (leaving `_fd`
unchanged in that case); resets `_fd = -1` on success. -/
def Uart.close (os : OsModel) (u : Uart) : UartResult :=
  let u1 : Uart := { u with opened := false }
  if u1.fd ≠ -1 then
    if os.closeOk u1.fd then .ok { u1 with fd := -1 }
    else .error (.runtimeError "Error in closing UART port.", u1)
  else .ok u1

/-- `Uart::configure` (private): re-applies the six stored settings in the
source's order — baud rate, parity, stop bits, data bits, hardware flow
control, software flow control — catching `std::invalid_argument` and
`std::runtime_error` and returning `false` on either. -/
def Uart.configure (u : Uart) : Bool × Uart :=
  match u.configBaudRate u.baudRate with
  | .error (_, v) => (false, v)
  | .ok u1 =>
  match u1.configParity u1.parity with
  | .error (_, v) => (false, v)
  | .ok u2 =>
  match u2.configStopBits u2.stopBits with
  | .error (_, v) => (false, v)
  | .ok u3 =>
  match u3.configDataBits u3.dataBits with
  | .error (_, v) => (false, v)
  | .ok u4 =>
  match u4.configHardwareFlowControl u4.hfc with
  | .error (_, v) => (false, v)
  | .ok u5 =>
  match u5.configSoftwareFlowControl u5.sfc with
  | .error (_, v) => (false, v)
  | .ok u6 => (true, u6)

/-- `Uart::open`: runs `configure`; on failure attempts `close()`, catching
and discarding any `std::runtime_error` from it, and returns `false`.
Otherwise calls `setAttributes()`, catching and discarding any
`std::runtime_error`, then sets `_open = true` and returns `true`. -/
def Uart.openLine (os : OsModel) (u : Uart) : Bool × Uart :=
  match u.configure with
  | (false, u1) => (false, exState (u1.close os))
  | (true, u1) => (true, { exState (u1.setAttributes os) with opened := true })

/-- `Uart::getBaudRate`. -/
def Uart.getBaudRate (u : Uart) : Nat := u.baudRate

/-- `Uart::getFd`. -/
def Uart.getFd (u : Uart) : Int := u.fd

/-- `Uart::isOpen`. -/
def Uart.isOpen (u : Uart) : Bool := u.opened

/-- `Uart::getStopBits`. -/
def Uart.getStopBits (u : Uart) : Int := u.stopBits

/-- One call to a public member function of the object (arguments included),
used to quantify over every sequence of operations on a `Uart`. -/
inductive Op where
  | cfgBaudRate (rate : Nat)
  | cfgDataBits (bits : Int)
  | cfgParity (p : Char)
  | cfgStopBits (bits : Int)
  | cfgHfc (enable : Bool)
  | cfgSfc (enable : Bool)
  | doOpen
  | doClose
  | doSetAttributes
deriving DecidableEq, Repr

/-- Object state after one member-function call; a call that throws still
leaves the object in its mutated state (the caller may catch). -/
def step (os : OsModel) (u : Uart) : Op → Uart
  | .cfgBaudRate r => exState (u.configBaudRate r)
  | .cfgDataBits b => exState (u.configDataBits b)
  | .cfgParity p => exState (u.configParity p)
  | .cfgStopBits b => exState (u.configStopBits b)
  | .cfgHfc e => exState (u.configHardwareFlowControl e)
  | .cfgSfc e => exState (u.configSoftwareFlowControl e)
  | .doOpen => (u.openLine os).2
  | .doClose => exState (u.close os)
  | .doSetAttributes => exState (u.setAttributes os)

/-- Object state after a sequence of member-function calls. -/
def run (os : OsModel) (u : Uart) (ops : List Op) : Uart :=
  ops.foldl (step os) u

/-- A concrete all-zero initial attribute record (stands for one possible
content of the uninitialized `_tty`). -/
def tty00 : Termios := ⟨0, 0, 0, 0, 0, 0⟩

/-- The spec's example construction: `Uart("/dev/ttyUSB0", 9600)` with the
declared defaults (no flow control, parity `'N'`, 1 stop bit, 8 data bits). -/
def u0 : Uart := mkUart "/dev/ttyUSB0" 9600 false false 'N' 1 8 tty00

/-- Same construction but with the out-of-domain data-bits value 9. -/
def u0bad : Uart := mkUart "/dev/ttyUSB0" 9600 false false 'N' 1 9 tty00

/-- `u0` with `CS8` (8 data bits) present in the pending `c_cflag`. -/
def uCS8 : Uart := { u0 with tty := { tty00 with c_cflag := 48 } }

/-- `u0` with the open flag raised. -/
def uOpened : Uart := { u0 with opened := true }

/-- A driver stub on which every OS call succeeds. -/
def osStub : OsModel := ⟨fun _ => true, fun _ => true⟩

/-- A driver stub on which every OS call fails. -/
def osFailAll : OsModel := ⟨fun _ => false, fun _ => false⟩

end UartModel

namespace UartModel

theorem configBaudRate_fd (u : Uart) (r : Nat) : (exState (u.configBaudRate r)).fd = u.fd := by
  rcases h : findBaud r with _ | p <;> simp [Uart.configBaudRate, exState, h]

theorem configDataBits_fd (u : Uart) (b : Int) : (exState (u.configDataBits b)).fd = u.fd := by
  unfold Uart.configDataBits
  split_ifs <;> rfl

theorem configParity_fd (u : Uart) (p : Char) : (exState (u.configParity p)).fd = u.fd := by
  unfold Uart.configParity
  split_ifs <;> rfl

theorem configStopBits_fd (u : Uart) (b : Int) : (exState (u.configStopBits b)).fd = u.fd := by
  unfold Uart.configStopBits
  split_ifs <;> rfl

theorem configHfc_fd (u : Uart) (e : Bool) : (exState (u.configHardwareFlowControl e)).fd = u.fd := by
  unfold Uart.configHardwareFlowControl
  split_ifs <;> rfl

theorem configSfc_fd (u : Uart) (e : Bool) : (exState (u.configSoftwareFlowControl e)).fd = u.fd := by
  unfold Uart.configSoftwareFlowControl
  split_ifs <;> rfl

theorem setAttributes_fd (os : OsModel) (u : Uart) : (exState (u.setAttributes os)).fd = u.fd := by
  unfold Uart.setAttributes
  dsimp only
  split_ifs <;> rfl

theorem setAttributes_opened (os : OsModel) (u : Uart) :
    (exState (u.setAttributes os)).opened = false := by
  unfold Uart.setAttributes
  dsimp only
  split_ifs <;> rfl

theorem close_state_opened (os : OsModel) (u : Uart) : (exState (u.close os)).opened = false := by
  unfold Uart.close
  dsimp only
  split_ifs <;> rfl

theorem close_noop (os : OsModel) (u : Uart) (h : u.fd = -1) :
    u.close os = .ok { u with opened := false } := by
  unfold Uart.close
  simp [h]

theorem close_fd_pres (os : OsModel) (u : Uart) (h : u.fd = -1) :
    (exState (u.close os)).fd = -1 := by
  rw [close_noop os u h]
  exact h

theorem configure_fd (u : Uart) : (u.configure).2.fd = u.fd := by
  unfold Uart.configure
  cases h1 : u.configBaudRate u.baudRate with
  | error a =>
    have e1 := configBaudRate_fd u u.baudRate
    rw [h1] at e1
    exact e1
  | ok u1 =>
    have e1 := configBaudRate_fd u u.baudRate
    rw [h1] at e1
    dsimp only
    cases h2 : u1.configParity u1.parity with
    | error a =>
      have e2 := configParity_fd u1 u1.parity
      rw [h2] at e2
      exact e2.trans e1
    | ok u2 =>
      have e2 := configParity_fd u1 u1.parity
      rw [h2] at e2
      dsimp only
      cases h3 : u2.configStopBits u2.stopBits with
      | error a =>
        have e3 := configStopBits_fd u2 u2.stopBits
        rw [h3] at e3
        exact (e3.trans e2).trans e1
      | ok u3 =>
        have e3 := configStopBits_fd u2 u2.stopBits
        rw [h3] at e3
        dsimp only
        cases h4 : u3.configDataBits u3.dataBits with
        | error a =>
          have e4 := configDataBits_fd u3 u3.dataBits
          rw [h4] at e4
          exact ((e4.trans e3).trans e2).trans e1
        | ok u4 =>
          have e4 := configDataBits_fd u3 u3.dataBits
          rw [h4] at e4
          dsimp only
          cases h5 : u4.configHardwareFlowControl u4.hfc with
          | error a =>
            have e5 := configHfc_fd u4 u4.hfc
            rw [h5] at e5
            exact (((e5.trans e4).trans e3).trans e2).trans e1
          | ok u5 =>
            have e5 := configHfc_fd u4 u4.hfc
            rw [h5] at e5
            dsimp only
            cases h6 : u5.configSoftwareFlowControl u5.sfc with
            | error a =>
              have e6 := configSfc_fd u5 u5.sfc
              rw [h6] at e6
              exact ((((e6.trans e5).trans e4).trans e3).trans e2).trans e1
            | ok u6 =>
              have e6 := configSfc_fd u5 u5.sfc
              rw [h6] at e6
              exact ((((e6.trans e5).trans e4).trans e3).trans e2).trans e1

theorem openLine_fd (os : OsModel) (u : Uart) (h : u.fd = -1) :
    (u.openLine os).2.fd = -1 := by
  unfold Uart.openLine
  have hc := configure_fd u
  rcases hcfg : u.configure with ⟨b, u1⟩
  rw [hcfg] at hc
  cases b with
  | false =>
    dsimp only
    exact close_fd_pres os u1 (by rw [hc]; exact h)
  | true =>
    dsimp only
    rw [setAttributes_fd]
    rw [hc]
    exact h

theorem step_fd (os : OsModel) (u : Uart) (op : Op) (h : u.fd = -1) : (step os u op).fd = -1 := by
  cases op with
  | cfgBaudRate r => rw [step, configBaudRate_fd]; exact h
  | cfgDataBits b => rw [step, configDataBits_fd]; exact h
  | cfgParity p => rw [step, configParity_fd]; exact h
  | cfgStopBits b => rw [step, configStopBits_fd]; exact h
  | cfgHfc e => rw [step, configHfc_fd]; exact h
  | cfgSfc e => rw [step, configSfc_fd]; exact h
  | doOpen => rw [step]; exact openLine_fd os u h
  | doClose => rw [step]; exact close_fd_pres os u h
  | doSetAttributes => rw [step, setAttributes_fd]; exact h

theorem run_fd (os : OsModel) (ops : List Op) :
    ∀ u : Uart, u.fd = -1 → (run os u ops).fd = -1 := by
  induction ops with
  | nil => intro u h; exact h
  | cons op rest ih => intro u h; exact ih (step os u op) (step_fd os u op h)

end UartModel

namespace UartModel

theorem paroddMask_and_zero (c : Nat) :
    ((((c ||| PARENB) &&& cNot PARODD) ||| PARENB) &&& PARODD) = 0 := by
  apply Nat.eq_of_testBit_eq
  intro i
  rw [Nat.zero_testBit]
  simp only [PARENB, PARODD, cNot, Nat.testBit_and, Nat.testBit_or]
  by_cases hi : i = 9
  · subst hi
    rw [show Nat.testBit 256 9 = false from by decide,
        show Nat.testBit (4294967295 ^^^ 512) 9 = false from by decide]
    simp
  · rw [show (512 : Nat) = 2 ^ 9 from by decide,
        Nat.testBit_two_pow_of_ne (Ne.symm hi)]
    simp

theorem configParity_N (u : Uart) :
    u.configParity 'N' = .ok { u with
      parity := 'N'
      opened := false
      tty := { u.tty with c_cflag := u.tty.c_cflag &&& cNot PARENB } } := by
  unfold Uart.configParity
  rw [if_pos rfl]

theorem configParity_E (u : Uart) :
    u.configParity 'E' = .ok { u with
      parity := 'E'
      opened := false
      tty := { u.tty with c_cflag := (u.tty.c_cflag ||| PARENB) &&& cNot PARODD } } := by
  unfold Uart.configParity
  rw [if_neg (by decide), if_pos rfl]

theorem configParity_O (u : Uart) :
    u.configParity 'O' = .ok { u with
      parity := 'O'
      opened := false
      tty := { u.tty with c_cflag := (u.tty.c_cflag ||| PARENB) &&& PARODD } } := by
  unfold Uart.configParity
  rw [if_neg (by decide), if_neg (by decide), if_pos rfl]

theorem configBaudRate_invalid (u : Uart) (r : Nat) (h : findBaud r = none) :
    u.configBaudRate r
      = .error (.invalidArgument "Invalid baud rate config",
          { u with baudRate := r, opened := false }) := by
  unfold Uart.configBaudRate
  dsimp only
  rw [h]

theorem configDataBits_invalid (u : Uart) (b : Int)
    (h5 : b ≠ 5) (h6 : b ≠ 6) (h7 : b ≠ 7) (h8 : b ≠ 8) :
    u.configDataBits b
      = .error (.invalidArgument "Invalid data bits config.",
          { u with
            dataBits := b
            opened := false
            tty := { u.tty with c_cflag := u.tty.c_cflag &&& cNot CSIZE } }) := by
  unfold Uart.configDataBits
  rw [if_neg h5, if_neg h6, if_neg h7, if_neg h8]

theorem configParity_invalid (u : Uart) (p : Char)
    (hN : p ≠ 'N') (hE : p ≠ 'E') (hO : p ≠ 'O') :
    u.configParity p
      = .error (.invalidArgument "Invalid parity config.",
          { u with parity := p, opened := false }) := by
  unfold Uart.configParity
  rw [if_neg hN, if_neg hE, if_neg hO]

theorem configStopBits_invalid (u : Uart) (b : Int) (h1 : b ≠ 1) (h2 : b ≠ 2) :
    u.configStopBits b
      = .error (.invalidArgument "Invalid stop bits config.",
          { u with stopBits := b, opened := false }) := by
  unfold Uart.configStopBits
  rw [if_neg h1, if_neg h2]

end UartModel

namespace UartModel

theorem configBaudRate_opened (u : Uart) (r : Nat) :
    (exState (u.configBaudRate r)).opened = false := by
  rcases h : findBaud r with _ | p <;> simp [Uart.configBaudRate, exState, h]

theorem configDataBits_opened (u : Uart) (b : Int) :
    (exState (u.configDataBits b)).opened = false := by
  unfold Uart.configDataBits
  split_ifs <;> rfl

theorem configParity_opened (u : Uart) (p : Char) :
    (exState (u.configParity p)).opened = false := by
  unfold Uart.configParity
  split_ifs <;> rfl

theorem configStopBits_opened (u : Uart) (b : Int) :
    (exState (u.configStopBits b)).opened = false := by
  unfold Uart.configStopBits
  split_ifs <;> rfl

theorem configHfc_opened (u : Uart) (e : Bool) :
    (exState (u.configHardwareFlowControl e)).opened = false := by
  unfold Uart.configHardwareFlowControl
  split_ifs <;> rfl

theorem configSfc_opened (u : Uart) (e : Bool) :
    (exState (u.configSoftwareFlowControl e)).opened = false := by
  unfold Uart.configSoftwareFlowControl
  split_ifs <;> rfl

/-- C1, counterexample.  A `configBaudRate` call with a rate outside the
table does fail with the invalid-configuration error, but it does NOT leave
the previously stored baud rate unchanged: the rejected value 1234 replaces
the prior 9600 before the validation throws. -/
theorem configBaudRate_invalid_mutates_state :
    u0.configBaudRate 1234
        = .error (.invalidArgument "Invalid baud rate config",
            { u0 with baudRate := 1234 })
  ∧ (exState (u0.configBaudRate 1234)).getBaudRate ≠ u0.getBaudRate :=
  ⟨rfl, by decide⟩

/-- C1, amended.  For every out-of-domain input each of the four validating
mutators fails with the `std::invalid_argument` (InvalidConfiguration) error,
but only after storing the rejected value into the logical field and setting
`_open = false`; `configDataBits` additionally clears the `CSIZE` bits of the
pending attribute record before rejecting, while the other three leave the
pending record untouched. -/
theorem config_mutators_invalid_domain (u : Uart) :
    (∀ r : Nat, findBaud r = none →
        u.configBaudRate r
          = .error (.invalidArgument "Invalid baud rate config",
              { u with baudRate := r, opened := false }))
  ∧ (∀ b : Int, b ≠ 5 → b ≠ 6 → b ≠ 7 → b ≠ 8 →
        u.configDataBits b
          = .error (.invalidArgument "Invalid data bits config.",
              { u with
                dataBits := b
                opened := false
                tty := { u.tty with c_cflag := u.tty.c_cflag &&& cNot CSIZE } }))
  ∧ (∀ p : Char, p ≠ 'N' → p ≠ 'E' → p ≠ 'O' →
        u.configParity p
          = .error (.invalidArgument "Invalid parity config.",
              { u with parity := p, opened := false }))
  ∧ (∀ b : Int, b ≠ 1 → b ≠ 2 →
        u.configStopBits b
          = .error (.invalidArgument "Invalid stop bits config.",
              { u with stopBits := b, opened := false })) :=
  ⟨fun r h => configBaudRate_invalid u r h,
   fun b h5 h6 h7 h8 => configDataBits_invalid u b h5 h6 h7 h8,
   fun p hN hE hO => configParity_invalid u p hN hE hO,
   fun b h1 h2 => configStopBits_invalid u b h1 h2⟩

/-- C1, witness for the amended theorem, at the rejected inputs
`baud 1234`, `dataBits 9`, `parity 'X'`, `stopBits 3`. -/
theorem config_mutators_invalid_domain_witness :
    u0.configBaudRate 1234
        = .error (.invalidArgument "Invalid baud rate config",
            { u0 with baudRate := 1234, opened := false })
  ∧ u0.configDataBits 9
        = .error (.invalidArgument "Invalid data bits config.",
            { u0 with
              dataBits := 9
              opened := false
              tty := { u0.tty with c_cflag := u0.tty.c_cflag &&& cNot CSIZE } })
  ∧ u0.configParity 'X'
        = .error (.invalidArgument "Invalid parity config.",
            { u0 with parity := 'X', opened := false })
  ∧ u0.configStopBits 3
        = .error (.invalidArgument "Invalid stop bits config.",
            { u0 with stopBits := 3, opened := false }) :=
  ⟨(config_mutators_invalid_domain u0).1 1234 (by decide),
   (config_mutators_invalid_domain u0).2.1 9 (by decide) (by decide) (by decide) (by decide),
   (config_mutators_invalid_domain u0).2.2.1 'X' (by decide) (by decide) (by decide),
   (config_mutators_invalid_domain u0).2.2.2 3 (by decide) (by decide)⟩

/-- C2.  The code violates the claim: `open()` on the default-configured
object returns `true` and raises `isOpen`, yet no device handle has been
acquired — `getFd()` still returns the absent sentinel `-1`.  (The member
function never performs the OS `open` call its own comment describes.) -/
theorem open_true_with_absent_handle :
    (Uart.openLine osStub u0).1 = true
  ∧ (Uart.openLine osStub u0).2.isOpen = true
  ∧ (Uart.openLine osStub u0).2.getFd = -1 := by
  refine ⟨rfl, rfl, rfl⟩

end UartModel

namespace UartModel

/-- C3.  `open()` orchestration: when the configure-all step fails, `open`
runs `close()` on the partially-mutated state, swallows any close error (the
result is the post-close state for every OS behaviour, error or not), and
returns `false` with the open flag down.  When configuration succeeds, the
`setAttributes` commit is attempted and — succeed or fail — `open` still
raises the open flag and returns `true`. -/
theorem open_orchestration (os : OsModel) (u : Uart) :
    ((u.configure).1 = false →
        u.openLine os = (false, exState (((u.configure).2).close os))
          ∧ ((u.openLine os).2).isOpen = false)
  ∧ ((u.configure).1 = true →
        u.openLine os
            = (true, { exState (((u.configure).2).setAttributes os) with opened := true })
          ∧ ((u.openLine os).2).isOpen = true) := by
  unfold Uart.openLine
  rcases h : u.configure with ⟨b, u1⟩
  cases b
  · refine ⟨fun _ => ⟨rfl, ?_⟩, fun hb => by simp at hb⟩
    exact close_state_opened os u1
  · refine ⟨fun hb => by simp at hb, fun _ => ⟨rfl, rfl⟩⟩

/-- C3, witness: with a driver on which every OS call fails, an object whose
stored data-bits value is invalid still gets a clean failing `open` (the
defensive close error is swallowed), and the default-configured object still
gets a successful `open` despite the failing commit. -/
theorem open_orchestration_witness :
    (u0bad.configure).1 = false
  ∧ (Uart.openLine osFailAll u0bad).1 = false
  ∧ (Uart.openLine osFailAll u0bad).2.isOpen = false
  ∧ (u0.configure).1 = true
  ∧ (Uart.openLine osFailAll u0).1 = true
  ∧ (Uart.openLine osFailAll u0).2.isOpen = true := by
  refine ⟨rfl, ?_, ?_, rfl, ?_, ?_⟩
  · exact congrArg Prod.fst (((open_orchestration osFailAll u0bad).1 rfl).1)
  · exact ((open_orchestration osFailAll u0bad).1 rfl).2
  · exact congrArg Prod.fst (((open_orchestration osFailAll u0).2 rfl).1)
  · exact ((open_orchestration osFailAll u0).2 rfl).2

/-- C4.  The code violates the claim: a successful `configParity('O')` call
does not restrict its edit to the parity bits.  Starting with `CS8` (the
8-data-bit code) in the pending `c_cflag`, the `'O'` branch's
`_tty.c_cflag &= PARODD` wipes the whole register to 0 — destroying the
`CSIZE` field and even leaving `PARENB` clear right after enabling it. -/
theorem configParity_odd_clobbers_cflag :
    uCS8.tty.c_cflag = CS8
  ∧ uCS8.configParity 'O'
      = .ok { uCS8 with parity := 'O', tty := { uCS8.tty with c_cflag := 0 } }
  ∧ (exState (uCS8.configParity 'O')).tty.c_cflag &&& PARENB = 0 :=
  ⟨rfl, rfl, by decide⟩

/-- C5, counterexample.  From a pending record whose `c_cflag` holds `CS8`,
setting parity Even, then Odd, then None leaves a record different from the
one obtained by setting None directly. -/
theorem parity_roundtrip_cex :
    (exState ((exState ((exState (uCS8.configParity 'E')).configParity 'O')).configParity 'N')).tty
      ≠ (exState (uCS8.configParity 'N')).tty := by
  decide

/-- C5, amended.  From any initial state, parity Even-then-Odd-then-None
agrees with a direct None call on every component except the `c_cflag`
bits: the three-step sequence always ends with `c_cflag = 0` (the `'O'`
branch's `&= PARODD` erases the register and `'N'` keeps it empty), whereas
the direct None call merely clears `PARENB`; the two records therefore only
coincide when the initial `c_cflag` had no bits outside `PARENB`. -/
theorem parity_roundtrip_amended (u : Uart) :
    exState ((exState ((exState (u.configParity 'E')).configParity 'O')).configParity 'N')
      = { exState (u.configParity 'N') with
          tty := { (exState (u.configParity 'N')).tty with c_cflag := 0 } }
  ∧ (exState (u.configParity 'N')).tty.c_cflag = u.tty.c_cflag &&& cNot PARENB := by
  constructor
  · simp only [configParity_E, configParity_O, configParity_N, exState]
    rw [paroddMask_and_zero, Nat.zero_and]
  · simp only [configParity_N, exState]

end UartModel

namespace UartModel

/-- C6.  Every successful configuration mutator — all six of them — leaves
the object reporting `isOpen() = false`, whatever the prior state (each one
assigns `_open = false` before doing anything else). -/
theorem mutators_clear_open (u : Uart) :
    (∀ r v, u.configBaudRate r = .ok v → v.isOpen = false)
  ∧ (∀ b v, u.configDataBits b = .ok v → v.isOpen = false)
  ∧ (∀ p v, u.configParity p = .ok v → v.isOpen = false)
  ∧ (∀ b v, u.configStopBits b = .ok v → v.isOpen = false)
  ∧ (∀ e v, u.configHardwareFlowControl e = .ok v → v.isOpen = false)
  ∧ (∀ e v, u.configSoftwareFlowControl e = .ok v → v.isOpen = false) := by
  refine ⟨fun r v hv => ?_, fun b v hv => ?_, fun p v hv => ?_,
          fun b v hv => ?_, fun e v hv => ?_, fun e v hv => ?_⟩
  · have h := configBaudRate_opened u r
    rw [hv] at h
    exact h
  · have h := configDataBits_opened u b
    rw [hv] at h
    exact h
  · have h := configParity_opened u p
    rw [hv] at h
    exact h
  · have h := configStopBits_opened u b
    rw [hv] at h
    exact h
  · have h := configHfc_opened u e
    rw [hv] at h
    exact h
  · have h := configSfc_opened u e
    rw [hv] at h
    exact h

/-- C6, witness: on an object whose open flag is raised, each of the six
mutators succeeds on a valid input and drops `isOpen` to false. -/
theorem mutators_clear_open_witness :
    uOpened.isOpen = true
  ∧ (exState (uOpened.configBaudRate 9600)).isOpen = false
  ∧ (exState (uOpened.configDataBits 8)).isOpen = false
  ∧ (exState (uOpened.configParity 'E')).isOpen = false
  ∧ (exState (uOpened.configStopBits 2)).isOpen = false
  ∧ (exState (uOpened.configHardwareFlowControl true)).isOpen = false
  ∧ (exState (uOpened.configSoftwareFlowControl true)).isOpen = false :=
  ⟨rfl,
   (mutators_clear_open uOpened).1 9600 _ rfl,
   (mutators_clear_open uOpened).2.1 8 _ rfl,
   (mutators_clear_open uOpened).2.2.1 'E' _ rfl,
   (mutators_clear_open uOpened).2.2.2.1 2 _ rfl,
   (mutators_clear_open uOpened).2.2.2.2.1 true _ rfl,
   (mutators_clear_open uOpened).2.2.2.2.2 true _ rfl⟩

/-- C8.  `close()` lowers the open flag before anything else: after any
execution of `close` — including one that throws the close error because the
OS release failed — the object reports `isOpen() = false`; and on a line
holding no descriptor, `close` is an error-free no-op apart from lowering
the flag. -/
theorem close_always_clears_open (os : OsModel) (u : Uart) :
    (exState (u.close os)).isOpen = false
  ∧ (u.fd = -1 → u.close os = .ok { u with opened := false }) :=
  ⟨close_state_opened os u, fun h => close_noop os u h⟩

/-- C8, witness: a never-opened object under a driver whose close call would
fail; `close` still succeeds and reports not-open, and on a state that does
hold a descriptor the failing close also leaves `isOpen` false. -/
theorem close_always_clears_open_witness :
    Uart.close osFailAll u0 = .ok { u0 with opened := false }
  ∧ (exState (Uart.close osFailAll { u0 with fd := 3, opened := true })).isOpen = false :=
  ⟨(close_always_clears_open osFailAll u0).2 rfl,
   (close_always_clears_open osFailAll { u0 with fd := 3, opened := true }).1⟩

/-- C10.  The device handle is never acquired: starting from any constructor
call, after every sequence of member-function operations under any driver
behaviour, `getFd()` still returns the absent sentinel `-1`, and `close()`
on the resulting state performs no OS-level release — it returns success
(merely lowering the open flag) no matter what the driver's close call
would do. -/
theorem fd_never_acquired (os os2 : OsModel) (ops : List Op) (port : String)
    (baud : Nat) (hfcArg sfcArg : Bool) (par : Char) (sb db : Int) (t0 : Termios) :
    (run os (mkUart port baud hfcArg sfcArg par sb db t0) ops).getFd = -1
  ∧ Uart.close os2 (run os (mkUart port baud hfcArg sfcArg par sb db t0) ops)
      = .ok { run os (mkUart port baud hfcArg sfcArg par sb db t0) ops with opened := false } := by
  have hfd : (run os (mkUart port baud hfcArg sfcArg par sb db t0) ops).fd = -1 :=
    run_fd os ops (mkUart port baud hfcArg sfcArg par sb db t0) rfl
  exact ⟨hfd, close_noop os2 _ hfd⟩

end UartModel

namespace UartModel

theorem configBaudRate_ok (u : Uart) (r : Nat) (p : Nat × Nat) (h : findBaud r = some p) :
    u.configBaudRate r = .ok { u with
      baudRate := r
      opened := false
      tty := { u.tty with c_ispeed := p.2, c_ospeed := p.2 } } := by
  unfold Uart.configBaudRate
  dsimp only
  rw [h]

/-- C9.  A baud rate is accepted by `configBaudRate` exactly when it is in
the standard table, and an accepted rate is exactly what `getBaudRate()`
then returns; a rate outside the table is rejected with the
invalid-configuration error. -/
theorem configBaudRate_table_spec (u : Uart) (rate : Nat) :
    ((findBaud rate).isSome = true →
        (u.configBaudRate rate).isOk = true
          ∧ (exState (u.configBaudRate rate)).getBaudRate = rate)
  ∧ ((findBaud rate).isSome = false →
        u.configBaudRate rate
          = .error (.invalidArgument "Invalid baud rate config",
              { u with baudRate := rate, opened := false })) := by
  rcases h : findBaud rate with _ | p
  · exact ⟨fun hs => by simp at hs, fun _ => configBaudRate_invalid u rate h⟩
  · refine ⟨fun _ => ?_, fun hn => by simp at hn⟩
    rw [configBaudRate_ok u rate p h]
    exact ⟨rfl, rfl⟩

/-- C9, witness: the table's end-points 0 and 4000000 and the cited rates
9600 and 115200 are accepted (and read back exactly), while 1234 — not in
the table — is rejected. -/
theorem configBaudRate_table_spec_witness :
    (findBaud 0).isSome = true
  ∧ (findBaud 4000000).isSome = true
  ∧ ((exState (u0.configBaudRate 9600)).getBaudRate = 9600
      ∧ (u0.configBaudRate 9600).isOk = true)
  ∧ ((exState (u0.configBaudRate 115200)).getBaudRate = 115200
      ∧ (u0.configBaudRate 115200).isOk = true)
  ∧ ((findBaud 1234).isSome = false
      ∧ u0.configBaudRate 1234
          = .error (.invalidArgument "Invalid baud rate config",
              { u0 with baudRate := 1234, opened := false })) :=
  ⟨by decide,
   by decide,
   ⟨((configBaudRate_table_spec u0 9600).1 (by decide)).2,
    ((configBaudRate_table_spec u0 9600).1 (by decide)).1⟩,
   ⟨((configBaudRate_table_spec u0 115200).1 (by decide)).2,
    ((configBaudRate_table_spec u0 115200).1 (by decide)).1⟩,
   ⟨by decide, (configBaudRate_table_spec u0 1234).2 (by decide)⟩⟩

end UartModel

namespace UartModel

theorem configBaudRate_isOk (u : Uart) (r : Nat) :
    (u.configBaudRate r).isOk = (findBaud r).isSome := by
  rcases h : findBaud r with _ | p <;> simp [Uart.configBaudRate, h, Except.isOk, Except.toBool]

theorem configParity_isOk (u : Uart) (p : Char) :
    (u.configParity p).isOk = true ↔ (p = 'N' ∨ p = 'E' ∨ p = 'O') := by
  unfold Uart.configParity
  split_ifs <;> simp [Except.isOk, Except.toBool, *]

theorem configStopBits_isOk (u : Uart) (b : Int) :
    (u.configStopBits b).isOk = true ↔ (b = 1 ∨ b = 2) := by
  unfold Uart.configStopBits
  split_ifs <;> simp [Except.isOk, Except.toBool, *]

theorem configDataBits_isOk (u : Uart) (b : Int) :
    (u.configDataBits b).isOk = true ↔ (b = 5 ∨ b = 6 ∨ b = 7 ∨ b = 8) := by
  unfold Uart.configDataBits
  split_ifs <;> simp [Except.isOk, Except.toBool, *]

theorem configHfc_isOk (u : Uart) (e : Bool) :
    (u.configHardwareFlowControl e).isOk = true := by
  unfold Uart.configHardwareFlowControl
  split_ifs <;> rfl

theorem configSfc_isOk (u : Uart) (e : Bool) :
    (u.configSoftwareFlowControl e).isOk = true := by
  unfold Uart.configSoftwareFlowControl
  split_ifs <;> rfl

theorem configBaudRate_parity (u : Uart) (r : Nat) :
    (exState (u.configBaudRate r)).parity = u.parity := by
  rcases h : findBaud r with _ | p <;> simp [Uart.configBaudRate, h, exState]

theorem configBaudRate_stopBits (u : Uart) (r : Nat) :
    (exState (u.configBaudRate r)).stopBits = u.stopBits := by
  rcases h : findBaud r with _ | p <;> simp [Uart.configBaudRate, h, exState]

theorem configBaudRate_dataBits (u : Uart) (r : Nat) :
    (exState (u.configBaudRate r)).dataBits = u.dataBits := by
  rcases h : findBaud r with _ | p <;> simp [Uart.configBaudRate, h, exState]

theorem configParity_stopBits (u : Uart) (p : Char) :
    (exState (u.configParity p)).stopBits = u.stopBits := by
  unfold Uart.configParity
  split_ifs <;> rfl

theorem configParity_dataBits (u : Uart) (p : Char) :
    (exState (u.configParity p)).dataBits = u.dataBits := by
  unfold Uart.configParity
  split_ifs <;> rfl

theorem configStopBits_dataBits (u : Uart) (b : Int) :
    (exState (u.configStopBits b)).dataBits = u.dataBits := by
  unfold Uart.configStopBits
  split_ifs <;> rfl

end UartModel

namespace UartModel

/-- Sequencing of two throwing calls: the second runs only when the first
returned normally (an exception short-circuits the rest of the `try` block
in `Uart::configure`). -/
def cfgSeq (r : UartResult) (f : Uart → UartResult) : UartResult :=
  match r with
  | .ok v => f v
  | .error e => .error e

/-- C7.  The private configure-all helper returns `true` exactly when all
six stored logical settings are in their domains (any mutator throw is
caught and turned into `false`, never propagated), and its resulting state
is that of running the six mutators in the fixed source order — baud rate,
parity, stop bits, data bits, hardware flow control, software flow
control — stopping at the first throw. -/
theorem configure_ok_iff (u : Uart) :
    ((u.configure).1 = true ↔
      ((findBaud u.baudRate).isSome = true
        ∧ (u.parity = 'N' ∨ u.parity = 'E' ∨ u.parity = 'O')
        ∧ (u.stopBits = 1 ∨ u.stopBits = 2)
        ∧ (u.dataBits = 5 ∨ u.dataBits = 6 ∨ u.dataBits = 7 ∨ u.dataBits = 8)))
  ∧ (u.configure).2 = exState
      (cfgSeq (u.configBaudRate u.baudRate) (fun u1 =>
       cfgSeq (u1.configParity u1.parity) (fun u2 =>
       cfgSeq (u2.configStopBits u2.stopBits) (fun u3 =>
       cfgSeq (u3.configDataBits u3.dataBits) (fun u4 =>
       cfgSeq (u4.configHardwareFlowControl u4.hfc) (fun u5 =>
       u5.configSoftwareFlowControl u5.sfc))))))  := by
  constructor
  · unfold Uart.configure
    cases h1 : u.configBaudRate u.baudRate with
    | error a =>
      have hb : (findBaud u.baudRate).isSome = false := by
        rw [← configBaudRate_isOk u u.baudRate, h1]
        rfl
      simp [hb]
    | ok u1 =>
      have hb : (findBaud u.baudRate).isSome = true := by
        rw [← configBaudRate_isOk u u.baudRate, h1]
        rfl
      have hp1 : u1.parity = u.parity := by
        have h := configBaudRate_parity u u.baudRate
        rw [h1] at h
        exact h
      have hs1 : u1.stopBits = u.stopBits := by
        have h := configBaudRate_stopBits u u.baudRate
        rw [h1] at h
        exact h
      have hd1 : u1.dataBits = u.dataBits := by
        have h := configBaudRate_dataBits u u.baudRate
        rw [h1] at h
        exact h
      dsimp only
      cases h2 : u1.configParity u1.parity with
      | error a =>
        have hpo := configParity_isOk u1 u1.parity
        rw [h2] at hpo
        simp [Except.isOk, Except.toBool] at hpo
        rw [hp1] at hpo
        simp [hb, hpo]
      | ok u2 =>
        have hpo := configParity_isOk u1 u1.parity
        rw [h2] at hpo
        simp [Except.isOk, Except.toBool] at hpo
        rw [hp1] at hpo
        have hs2 : u2.stopBits = u.stopBits := by
          have h := configParity_stopBits u1 u1.parity
          rw [h2] at h
          exact h.trans hs1
        have hd2 : u2.dataBits = u.dataBits := by
          have h := configParity_dataBits u1 u1.parity
          rw [h2] at h
          exact h.trans hd1
        dsimp only
        cases h3 : u2.configStopBits u2.stopBits with
        | error a =>
          have hso := configStopBits_isOk u2 u2.stopBits
          rw [h3] at hso
          simp [Except.isOk, Except.toBool] at hso
          rw [hs2] at hso
          simp [hb, hpo, hso]
        | ok u3 =>
          have hso := configStopBits_isOk u2 u2.stopBits
          rw [h3] at hso
          simp [Except.isOk, Except.toBool] at hso
          rw [hs2] at hso
          have hd3 : u3.dataBits = u.dataBits := by
            have h := configStopBits_dataBits u2 u2.stopBits
            rw [h3] at h
            exact h.trans hd2
          dsimp only
          cases h4 : u3.configDataBits u3.dataBits with
          | error a =>
            have hdo := configDataBits_isOk u3 u3.dataBits
            rw [h4] at hdo
            simp [Except.isOk, Except.toBool] at hdo
            rw [hd3] at hdo
            simp [hb, hpo, hso, hdo]
          | ok u4 =>
            have hdo := configDataBits_isOk u3 u3.dataBits
            rw [h4] at hdo
            simp [Except.isOk, Except.toBool] at hdo
            rw [hd3] at hdo
            dsimp only
            cases h5 : u4.configHardwareFlowControl u4.hfc with
            | error a =>
              have hB := configHfc_isOk u4 u4.hfc
              rw [h5] at hB
              simp [Except.isOk, Except.toBool] at hB
            | ok u5 =>
              dsimp only
              cases h6 : u5.configSoftwareFlowControl u5.sfc with
              | error a =>
                have hB := configSfc_isOk u5 u5.sfc
                rw [h6] at hB
                simp [Except.isOk, Except.toBool] at hB
              | ok u6 =>
                simp [hb, hpo, hso, hdo]
  · unfold Uart.configure
    cases h1 : u.configBaudRate u.baudRate with
    | error a => rfl
    | ok u1 =>
      dsimp only [cfgSeq]
      cases h2 : u1.configParity u1.parity with
      | error a => rfl
      | ok u2 =>
        dsimp only [cfgSeq]
        cases h3 : u2.configStopBits u2.stopBits with
        | error a => rfl
        | ok u3 =>
          dsimp only [cfgSeq]
          cases h4 : u3.configDataBits u3.dataBits with
          | error a => rfl
          | ok u4 =>
            dsimp only [cfgSeq]
            cases h5 : u4.configHardwareFlowControl u4.hfc with
            | error a => rfl
            | ok u5 =>
              dsimp only [cfgSeq]
              cases h6 : u5.configSoftwareFlowControl u5.sfc with
              | error a => rfl
              | ok u6 => rfl

end UartModel

namespace UartModel

/-- C7, witness: with the default valid construction `configure` reports
success; with the out-of-domain data-bits value 9 it reports failure. -/
theorem configure_ok_iff_witness :
    (u0.configure).1 = true ∧ (u0bad.configure).1 = false := by
  constructor
  · exact (configure_ok_iff u0).1.mpr ⟨by decide, by decide, by decide, by decide⟩
  · have h := (configure_ok_iff u0bad).1
    cases hB : (u0bad.configure).1 with
    | false => rfl
    | true =>
      rw [hB] at h
      have hv := h.mp rfl
      simp [u0bad, mkUart] at hv

end UartModel
